import Mathlib

/-
  Verification of the scraping pipeline in scrap_n_answer.py.

  The script is embedded shallowly:
  * Python strings are Lean `String`s; the relevant `str` operations
    (lower, strip, join, slicing, substring test) are re-defined here on
    character lists so that they are executable and proof-friendly.
  * An HTTP GET (`requests.get` + `raise_for_status`) is modelled as a value
    of type `Except String (List Html)`: either a transport/HTTP error with a
    message, or a successfully fetched body already parsed into an HTML
    forest (BeautifulSoup parsing itself is not a subject of any claim).
  * The Gemini call is modelled as a function argument
    `generate : String → String → Except GenError String` (model name and
    prompt in, either a response text or a tagged error out), and
    `random.choice(MODELS)` as an arbitrary index argument `pick`.
  * Console `print` calls are modelled by a `logs` field accompanying each
    result, and an uncaught exception by `Except.error` propagating out of
    `main`.
-/

namespace ScrapNAnswer

/-! ## String primitives modelling the Python `str` operations used -/

/-- The whitespace characters stripped by Python `str.strip()` (ASCII part). -/
def isSpaceChar (c : Char) : Bool :=
  c = ' ' || c = '\t' || c = '\n' || c = '\r' || c = '\x0b' || c = '\x0c'

/-- Models Python `s.strip()`: drop leading and trailing whitespace. -/
def pyStrip (s : String) : String :=
  ⟨((s.data.dropWhile isSpaceChar).reverse.dropWhile isSpaceChar).reverse⟩

/-- `c` is an ASCII upper-case letter. -/
def isUpperAscii (c : Char) : Bool := 65 ≤ c.toNat && c.toNat ≤ 90

/-- Models Python `str.lower()` on one character (ASCII range; the hrefs and
keywords handled by the script are ASCII). -/
def lowerChar (c : Char) : Char :=
  if isUpperAscii c then Char.ofNat (c.toNat + 32) else c

/-- Models Python `s.lower()`. -/
def lowerStr (s : String) : String := ⟨s.data.map lowerChar⟩

/-- `startsWithChars l p` is true when `p` is an initial segment of `l`. -/
def startsWithChars : List Char → List Char → Bool
  | _, [] => true
  | [], _ :: _ => false
  | a :: as, b :: bs => a = b && startsWithChars as bs

/-- `hasSubChars hay needle` is true when `needle` occurs contiguously in
`hay`; models the Python test `needle in hay` on strings. -/
def hasSubChars : List Char → List Char → Bool
  | [], needle => startsWithChars [] needle
  | hay@(_ :: rest), needle => startsWithChars hay needle || hasSubChars rest needle

/-- Models the Python membership test `needle in hay` for strings. -/
def strContains (hay needle : String) : Bool := hasSubChars hay.data needle.data

/-- Case-insensitive containment (used only to state claims about what a
case-insensitive keyword match would accept). -/
def ciContains (hay needle : String) : Bool := strContains (lowerStr hay) (lowerStr needle)

/-- Models Python `sep.join(parts)`. -/
def joinWith (sep : String) : List String → String
  | [] => ""
  | [s] => s
  | s :: rest => s ++ sep ++ joinWith sep rest

/-- Models Python slicing `s[:n]`. -/
def truncateStr (s : String) (n : Nat) : String := ⟨s.data.take n⟩

/-- The longest initial segment of `s` not containing `stop`. -/
def takeUntilChar (s : String) (stop : Char) : String :=
  ⟨s.data.takeWhile (fun c => c ≠ stop)⟩

/-- `Except.isOk` specialised: true when a model-call result is a success. -/
def exceptIsOk {ε α : Type} : Except ε α → Bool
  | .ok _ => true
  | .error _ => false

/-! ## HTML documents

A fetched response body, as parsed by BeautifulSoup: a forest of nodes, each
node either a text node or an element with a tag name, attributes and
children. -/

inductive Html where
  | text (s : String)
  | elem (tag : String) (attrs : List (String × String)) (children : List Html)

/-- First value bound to attribute `key` (the html.parser keeps the first of
duplicated attributes). -/
def attrValue (key : String) (attrs : List (String × String)) : Option String :=
  match attrs.find? (fun p => p.1 = key) with
  | some p => some p.2
  | none => none

mutual
/-- The href values of all anchor elements that carry an href attribute, in
document order; models `soup.find_all("a", href=True)` followed by
`anchor["href"]`. -/
def anchorHrefs : Html → List String
  | .text _ => []
  | .elem tag attrs children =>
      (if tag = "a" then (attrValue "href" attrs).toList else []) ++ anchorHrefsList children
def anchorHrefsList : List Html → List String
  | [] => []
  | h :: t => anchorHrefs h ++ anchorHrefsList t
end

/-- The tag names removed before text extraction, from
`soup(["script", "style", "header", "footer", "nav"])`. -/
def removedTags : List String := ["script", "style", "header", "footer", "nav"]

mutual
/-- Models `tag.extract()` applied to every element whose tag is in
`removedTags`: the subtree rooted at such an element disappears wholesale. -/
def pruneHtml : Html → List Html
  | .text s => [.text s]
  | .elem tag attrs children =>
      if tag ∈ removedTags then [] else [.elem tag attrs (pruneList children)]
def pruneList : List Html → List Html
  | [] => []
  | h :: t => pruneHtml h ++ pruneList t
end

mutual
/-- Models `soup.stripped_strings`: the text nodes in document order, each
stripped of surrounding whitespace, empty results skipped. -/
def strippedStrings : Html → List String
  | .text s => if pyStrip s = "" then [] else [pyStrip s]
  | .elem _ _ children => strippedStringsList children
def strippedStringsList : List Html → List String
  | [] => []
  | h :: t => strippedStrings h ++ strippedStringsList t
end

mutual
/-- Spec-side description of the visible text of a document: the stripped,
non-empty text nodes that do not sit below any script/style/header/footer/nav
element. Used to state that scraping keeps no content from removed tags. -/
def visibleStrings : Html → List String
  | .text s => if pyStrip s = "" then [] else [pyStrip s]
  | .elem tag _ children =>
      if tag ∈ removedTags then [] else visibleStringsList children
def visibleStringsList : List Html → List String
  | [] => []
  | h :: t => visibleStrings h ++ visibleStringsList t
end

/-! ## URL resolution

`requests.compat.urljoin` is `urllib.parse.urljoin`. The cases exercised by
the script (absolute references, scheme-relative, host-absolute, fragment,
query and relative references against an http(s) base) are modelled from its
documented behaviour; dot-segment normalisation is not modelled. -/

/-- Characters allowed after the first position of a URL scheme. -/
def isSchemeChar (c : Char) : Bool :=
  c.isAlpha || c.isDigit || c = '+' || c = '-' || c = '.'

/-- Split at the first colon when everything before it is scheme material. -/
def schemeSplitAux (acc : List Char) : List Char → Option (List Char × List Char)
  | [] => none
  | c :: rest =>
      if c = ':' then some (acc.reverse, rest)
      else if isSchemeChar c then schemeSplitAux (c :: acc) rest
      else none

/-- Split `s` into scheme and remainder when `s` starts with a valid scheme
followed by a colon. -/
def splitScheme (s : String) : Option (String × String) :=
  match schemeSplitAux [] s.data with
  | some (sch, rest) =>
      match sch with
      | [] => none
      | c :: _ => if c.isAlpha then some (⟨sch⟩, ⟨rest⟩) else none
  | none => none

/-- Split the part after `scheme:` into host and path-query-fragment. -/
def splitHostPath (s : String) : String × String :=
  if startsWithChars s.data ['/', '/'] then
    let rest := s.data.drop 2
    let i := rest.findIdx (fun c => c = '/' || c = '?' || c = '#')
    (⟨rest.take i⟩, ⟨rest.drop i⟩)
  else ("", s)

/-- Models `urllib.parse.urljoin base url` for the reference kinds the script
produces. -/
def urljoin (base url : String) : String :=
  if url = "" then base
  else
    match splitScheme url with
    | some _ => url
    | none =>
        match splitScheme base with
        | none => url
        | some (bscheme, brest) =>
            let hp := splitHostPath brest
            let bhost := hp.1
            let bpath := hp.2
            if startsWithChars url.data ['/', '/'] then bscheme ++ ":" ++ url
            else if startsWithChars url.data ['/'] then bscheme ++ "://" ++ bhost ++ url
            else if startsWithChars url.data ['#'] then
              bscheme ++ "://" ++ bhost ++ takeUntilChar bpath '#' ++ url
            else if startsWithChars url.data ['?'] then
              bscheme ++ "://" ++ bhost ++ takeUntilChar (takeUntilChar bpath '#') '?' ++ url
            else
              let p := takeUntilChar (takeUntilChar bpath '#') '?'
              let dir := String.mk ((p.data.reverse.dropWhile (fun c => c ≠ '/')).reverse)
              let dir := if dir = "" then "/" else dir
              bscheme ++ "://" ++ bhost ++ dir ++ url

/-! ## The script itself -/

/-- The fixed model list `MODELS`. -/
def MODELS : List String :=
  ["gemini-2.0-pro-exp", "gemini-1.5-pro", "gemini-2.0-flash"]

/-- The fixed seed list `URLS`. -/
def URLS : List String :=
  ["https://lenovo.com", "https://www.gsk.com", "https://www.tcs.com",
   "https://www.ford.com", "https://www.siemens-energy.com",
   "https://www.americanexpress.com"]

/-- The fixed keyword list `RELEVANT_LINKS`, verbatim from the source,
including the mixed-case entries. -/
def RELEVANT_LINKS : List String :=
  ["home", "about", "contact", "services", "products", "Contact Us",
   "About Lenovo", "Investors", "Vehicles"]

/-- A returned value together with the console lines printed on the way. -/
structure Output (α : Type) where
  val : α
  logs : List String

/-- The test applied by `get_relevant_links` to one lowercased href:
`any(keyword in href for keyword in RELEVANT_LINKS)`. -/
def linkMatches (href : String) : Bool :=
  RELEVANT_LINKS.any (fun keyword => strContains (lowerStr href) keyword)

/-- `get_relevant_links(base_url)`. The HTTP GET outcome is the `fetched`
argument. On error: print and return `[]`. On success: for each anchor href
(in document order) lowercase it, keep it when some keyword of
`RELEVANT_LINKS` occurs in it verbatim, resolve it against `base_url`, print
it; finally `list(set(links))` removes duplicates (Python leaves the set
order unspecified; it is modelled by `List.dedup`, which keeps one occurrence
of each element). -/
def get_relevant_links (base_url : String) (fetched : Except String (List Html)) :
    Output (List String) :=
  match fetched with
  | .error msg => ⟨[], ["Error fetching " ++ base_url ++ ": " ++ msg]⟩
  | .ok doc =>
      let found := (anchorHrefsList doc).filterMap (fun anchorHref =>
        let href := lowerStr anchorHref
        if RELEVANT_LINKS.any (fun keyword => strContains href keyword) then
          some (urljoin base_url href)
        else none)
      ⟨found.dedup, found.map (fun u => "Found relevant link: " ++ u)⟩

/-- `scrape_text(url)`. On fetch error: print and return `""`. On success:
remove script/style/header/footer/nav subtrees, join the stripped text nodes
with single spaces, keep the first 1000 characters. -/
def scrape_text (url : String) (fetched : Except String (List Html)) : Output String :=
  match fetched with
  | .error msg => ⟨"", ["Error scraping " ++ url ++ ": " ++ msg]⟩
  | .ok doc =>
      let text := joinWith " " (strippedStringsList (pruneList doc))
      ⟨truncateStr text 1000, []⟩

/-- Errors a model call can raise: a `requests.RequestException` (the only
class caught by `extract_details`) or anything else. -/
inductive GenError where
  | transport (msg : String)
  | other (msg : String)

/-- Text of the extraction prompt before the interpolated `{text}`. -/
def promptHead : String :=
  "\n                Content:\n                    "

/-- Text of the extraction prompt after the interpolated `{text}`. -/
def promptTail : String :=
  "\n                    You are a technical content writer for a person who is in the field of Market Research meaning\n" ++
  "                        he wants constantly wants data of many companies That is why he wants to know about the company\n" ++
  "                        -\"What is the company\x27s mission statement or core values?\"\n" ++
  "                        -\"What products or services does the company offer?\"\n" ++
  "                        -\"When was the company founded, and who were the founders?\"\n" ++
  "                        -\"Where is the company\x27s headquarters located?\"\n" ++
  "                        -\"Who are the key executives or leadership team members?\"\n" ++
  "                        -\"Has the company received any notable awards or recognitions?\"\n" ++
  "                        \n" ++
  "                        \n" ++
  "                        Output format should follow only text in csv format without any markdown elements and the first row should contain the questions and quoted for each question and answer and only one \"\" so that it can be recognized as a cell in csv.\n" ++
  "                        Don\x27t Quote the whole response, only the answers to the questions. And the questions which have comma in them should be quoted.\n" ++
  "                        Answer these questions from the given text content.\n" ++
  "                        No other text needs to be generated just the answers to these questions.\n" ++
  "                        If the answer is not present in the text, then say \"Not Available\".\n" ++
  "                        The answers should be human like and shouldn\x27t explicitly say anything about the availability of information in the text.\n\n" ++
  "                "

/-- The prompt built by `extract_details`, embedding the text verbatim. -/
def buildPrompt (text : String) : String := promptHead ++ text ++ promptTail

/-- `random.choice(MODELS)`, modelled by an arbitrary index. -/
def chooseModel (pick : Nat) : String := MODELS.getD (pick % MODELS.length) ""

/-- `extract_details(text)`. The model call outcome is given by `generate`.
A success returns the stripped response text; a `requests.RequestException`
is caught, printed and turned into `""`; every other error propagates
(modelled by `Except.error` in the returned value). -/
def extract_details (text : String) (pick : Nat)
    (generate : String → String → Except GenError String) : Output (Except String String) :=
  match generate (chooseModel pick) (buildPrompt text) with
  | .ok response => ⟨.ok (pyStrip response), []⟩
  | .error (.transport msg) =>
      ⟨.ok "", ["Error extracting details due to a request issue: " ++ msg]⟩
  | .error (.other msg) => ⟨.error msg, []⟩

/-- The ambient world `main` runs against: what each GET returns and what the
model answers. -/
structure Env where
  fetch : String → Except String (List Html)
  generate : String → String → Except GenError String
  pick : Nat

/-- One row of the result table: `{"URL": url, "Extracted Details": ...}`. -/
structure ResultRecord where
  url : String
  details : String

/-- The argument of `extract_details` in `main`:
`" ".join(scrape_text(link) for link in relevant_pages)`. -/
def combined_text (env : Env) (url : String) : String :=
  joinWith " "
    (((get_relevant_links url (env.fetch url)).val).map
      (fun link => (scrape_text link (env.fetch link)).val))

/-- One iteration of the loop in `main`: an uncaught extraction error aborts
the whole run. -/
def processSite (env : Env) (url : String) : Except String ResultRecord :=
  match (extract_details (combined_text env url) env.pick env.generate).val with
  | .ok details => .ok ⟨url, details⟩
  | .error msg => .error msg

/-- The loop of `main` over the seed list, accumulating `results`. -/
def runSites (env : Env) : List String → Except String (List ResultRecord)
  | [] => .ok []
  | url :: rest =>
      match processSite env url with
      | .error msg => .error msg
      | .ok record =>
          match runSites env rest with
          | .error msg => .error msg
          | .ok records => .ok (record :: records)

/-- `pd.DataFrame(results).to_csv(..., index=False)`: a header row with the
two column names, then one row per record, in order. -/
def csvRows (records : List ResultRecord) : List (List String) :=
  ["URL", "Extracted Details"] :: records.map (fun r => [r.url, r.details])

/-- `main()`: process every seed URL, then write the CSV. The written file
content is the returned row list; an uncaught error means no file is
written. -/
def main (env : Env) : Except String (List (List String)) :=
  (runSites env URLS).map csvRows

/-! ## Derived definitions used to state the properties -/

/-- The list of resolved links built by the loop of `get_relevant_links`
before `list(set(...))` is applied; `(get_relevant_links b (.ok d)).val` is
its deduplication. -/
def foundLinks (base_url : String) (doc : List Html) : List String :=
  (anchorHrefsList doc).filterMap (fun anchorHref =>
    let href := lowerStr anchorHref
    if RELEVANT_LINKS.any (fun keyword => strContains href keyword) then
      some (urljoin base_url href)
    else none)

/-- The "Extracted Details" cell that `main` records for one site when the
extraction does not abort the run. -/
def detailsOf (env : Env) (url : String) : String :=
  match (extract_details (combined_text env url) env.pick env.generate).val with
  | .ok details => details
  | .error _ => ""

/-! ## Concrete fixtures for the witnesses and counterexamples -/

/-- A homepage with a single anchor to `/investors`. -/
def pageInvestors : List Html :=
  [Html.elem "body" []
    [Html.elem "a" [("href", "/investors")] [Html.text "Investors"]]]

/-- A homepage with two distinct matching anchors. -/
def pageTwoAnchors : List Html :=
  [Html.elem "body" []
    [Html.elem "a" [("href", "/about")] [Html.text "About"],
     Html.elem "a" [("href", "/contact")] [Html.text "Contact"]]]

/-- A homepage repeating one matching anchor, once in different case. -/
def pageDupAnchors : List Html :=
  [Html.elem "a" [("href", "/about")] [],
   Html.elem "a" [("href", "/about")] [],
   Html.elem "a" [("href", "/ABOUT")] []]

/-- A world where only the homepage of `https://a.com` is reachable and every
discovered page fails to fetch; the model always answers. -/
def envTwoFail : Env :=
  ⟨fun u => if u = "https://a.com" then Except.ok pageTwoAnchors else Except.error "down",
   fun _ _ => Except.ok "ok", 0⟩

/-- A world where every GET fails and the model always answers. -/
def envDown : Env :=
  ⟨fun _ => Except.error "connection error", fun _ _ => Except.ok "details", 0⟩

/-- A model that answers with surrounding whitespace. -/
def genOkResp : String → String → Except GenError String :=
  fun _ _ => Except.ok " resp "

/-- A model call that fails with a `requests.RequestException`. -/
def genTransport : String → String → Except GenError String :=
  fun _ _ => Except.error (GenError.transport "timeout")

/-- A model call that raises a non-transport error. -/
def genOther : String → String → Except GenError String :=
  fun _ _ => Except.error (GenError.other "bad response")

/-! ## Helper lemmas -/

theorem toNat_ofNat_valid (n : Nat) (h : n.isValidChar) : (Char.ofNat n).toNat = n := by
  rw [Char.ofNat, dif_pos h]
  rfl

theorem lowerChar_not_upper (c : Char) : isUpperAscii (lowerChar c) = false := by
  unfold lowerChar
  by_cases h : isUpperAscii c = true
  · rw [if_pos h]
    unfold isUpperAscii at h ⊢
    simp only [Bool.and_eq_true, decide_eq_true_eq] at h
    have hv : (c.toNat + 32).isValidChar := Or.inl (by omega)
    rw [toNat_ofNat_valid _ hv]
    simp only [Bool.and_eq_false_iff, decide_eq_false_iff_not]
    omega
  · rw [if_neg h]
    exact Bool.eq_false_iff.mpr h

theorem lowerStr_no_upper (s : String) : ∀ c ∈ (lowerStr s).data, isUpperAscii c = false := by
  intro c hc
  rw [lowerStr] at hc
  obtain ⟨a, _, rfl⟩ := List.mem_map.mp hc
  exact lowerChar_not_upper a

theorem joinWith_empties :
    ∀ n : Nat, joinWith " " (List.replicate n "") = String.mk (List.replicate (n - 1) ' ')
  | 0 => rfl
  | 1 => rfl
  | (n + 2) => by
      have ih := joinWith_empties (n + 1)
      show ("" : String) ++ " " ++ joinWith " " (List.replicate (n + 1) "") = _
      rw [ih]
      rfl

theorem strippedStringsList_append (xs ys : List Html) :
    strippedStringsList (xs ++ ys) = strippedStringsList xs ++ strippedStringsList ys := by
  induction xs with
  | nil => rfl
  | cons h t ih => simp [strippedStringsList, ih, List.append_assoc]

mutual
theorem strippedStrings_pruneHtml (h : Html) :
    strippedStringsList (pruneHtml h) = visibleStrings h := by
  cases h with
  | text s => simp [pruneHtml, strippedStringsList, strippedStrings, visibleStrings]
  | elem tag attrs children =>
      by_cases ht : tag ∈ removedTags
      · simp [pruneHtml, ht, strippedStringsList, visibleStrings]
      · simp [pruneHtml, ht, strippedStringsList, strippedStrings, visibleStrings,
          strippedStrings_pruneList children]
theorem strippedStrings_pruneList (cs : List Html) :
    strippedStringsList (pruneList cs) = visibleStringsList cs := by
  cases cs with
  | nil => rfl
  | cons h t =>
      simp [pruneList, visibleStringsList, strippedStringsList_append,
        strippedStrings_pruneHtml h, strippedStrings_pruneList t]
end

theorem get_relevant_links_ok_val (base_url : String) (doc : List Html) :
    (get_relevant_links base_url (Except.ok doc)).val = (foundLinks base_url doc).dedup := rfl

theorem processSite_eq (env : Env) (url : String)
    (h : ∀ n p m, env.generate n p ≠ Except.error (GenError.other m)) :
    processSite env url = Except.ok ⟨url, detailsOf env url⟩ := by
  cases hg : env.generate (chooseModel env.pick) (buildPrompt (combined_text env url)) with
  | ok s => simp [processSite, detailsOf, extract_details, hg]
  | error e =>
      cases e with
      | transport m => simp [processSite, detailsOf, extract_details, hg]
      | other m => exact absurd hg (h _ _ m)

theorem runSites_eq (env : Env)
    (h : ∀ n p m, env.generate n p ≠ Except.error (GenError.other m)) :
    ∀ urls : List String,
      runSites env urls = Except.ok (urls.map (fun url => ⟨url, detailsOf env url⟩))
  | [] => rfl
  | url :: rest => by
      have h1 := processSite_eq env url h
      have h2 := runSites_eq env h rest
      simp [runSites, h1, h2]

/-! ## The claims -/

/-- Claim C1 (code bug): the spec asks for a case-insensitive keyword match,
and the mixed-case entries of `RELEVANT_LINKS` show the same intent, but the
code lowercases only the href and compares the keywords verbatim, so the
keyword "Investors" never matches. On a homepage whose single anchor href is
"/investors" — which contains "Investors" ignoring case — `get_relevant_links`
returns the empty list instead of the resolved URL. -/
theorem relevant_links_mixed_case_keyword_bug :
    "Investors" ∈ RELEVANT_LINKS
    ∧ ciContains "/investors" "Investors" = true
    ∧ (get_relevant_links "https://www.gsk.com" (Except.ok pageInvestors)).val = []
    ∧ urljoin "https://www.gsk.com" (lowerStr "/investors")
        ∉ (get_relevant_links "https://www.gsk.com" (Except.ok pageInvestors)).val := by
  decide

/-- Claim C2 (counterexample): with two discovered pages that both fail to
scrape, the string handed to the extraction stage is a single space, not the
empty string, because `" ".join` inserts the separator between the two empty
page texts. -/
theorem combined_text_two_failed_pages_cex :
    (get_relevant_links "https://a.com" (envTwoFail.fetch "https://a.com")).val
        = ["https://a.com/about", "https://a.com/contact"]
    ∧ (scrape_text "https://a.com/about" (envTwoFail.fetch "https://a.com/about")).val = ""
    ∧ (scrape_text "https://a.com/contact" (envTwoFail.fetch "https://a.com/contact")).val = ""
    ∧ combined_text envTwoFail "https://a.com" = " "
    ∧ ¬ combined_text envTwoFail "https://a.com" = "" := by
  decide

/-- Claim C2 (amended): if every discovered page of a site fails to scrape,
`extract_details` is invoked with a string of n − 1 space characters, where n
is the number of discovered pages — the empty string exactly when at most one
page was discovered — and the extraction stage does not raise for that reason
alone (it can only raise through a non-transport model error, whatever its
input text). -/
theorem combined_text_all_pages_failed (env : Env) (url : String) (pick : Nat)
    (generate : String → String → Except GenError String)
    (hfail : ∀ link ∈ (get_relevant_links url (env.fetch url)).val,
        (scrape_text link (env.fetch link)).val = "")
    (hgen : ∀ n p m, generate n p ≠ Except.error (GenError.other m)) :
    combined_text env url
      = String.mk (List.replicate ((get_relevant_links url (env.fetch url)).val.length - 1) ' ')
    ∧ exceptIsOk (extract_details (combined_text env url) pick generate).val = true := by
  constructor
  · unfold combined_text
    have hmap : ((get_relevant_links url (env.fetch url)).val).map
          (fun link => (scrape_text link (env.fetch link)).val)
        = List.replicate ((get_relevant_links url (env.fetch url)).val.length) "" := by
      have hlen : (((get_relevant_links url (env.fetch url)).val).map
            (fun link => (scrape_text link (env.fetch link)).val)).length
          = ((get_relevant_links url (env.fetch url)).val).length := by simp
      rw [← hlen]
      apply List.eq_replicate_length.mpr
      intro b hb
      obtain ⟨link, hlink, hfb⟩ := List.mem_map.mp hb
      rw [← hfb]
      exact hfail link hlink
    rw [hmap, joinWith_empties]
  · cases hg : generate (chooseModel pick) (buildPrompt (combined_text env url)) with
    | ok s => simp [extract_details, hg, exceptIsOk]
    | error e =>
        cases e with
        | transport m => simp [extract_details, hg, exceptIsOk]
        | other m => exact absurd hg (hgen _ _ m)

/-- Witness for the amended claim C2, at the world where both discovered
pages of `https://a.com` fail to fetch. -/
theorem combined_text_all_pages_failed_witness :
    combined_text envTwoFail "https://a.com"
      = String.mk (List.replicate
          ((get_relevant_links "https://a.com" (envTwoFail.fetch "https://a.com")).val.length - 1) ' ')
    ∧ exceptIsOk (extract_details (combined_text envTwoFail "https://a.com") 0
        envTwoFail.generate).val = true :=
  combined_text_all_pages_failed envTwoFail "https://a.com" 0 envTwoFail.generate
    (by decide) (fun _ _ _ hc => nomatch hc)

/-- Claim C3: whenever the run completes — in particular whatever mix of
caught (transport) extraction failures occurred — the CSV written by `main`
is exactly one header row with columns "URL" and "Extracted Details" followed
by one data row per seed URL, in the order of `URLS`. The only way a run does
not complete is an uncaught non-transport model error, which writes no file
at all. -/
theorem main_csv_shape (env : Env)
    (h : ∀ n p m, env.generate n p ≠ Except.error (GenError.other m)) :
    main env = Except.ok (["URL", "Extracted Details"] ::
      URLS.map (fun url => [url, detailsOf env url])) := by
  rw [main, runSites_eq env h URLS]
  simp [Except.map, csvRows, List.map_map]

/-- Witness for claim C3, at a world where every fetch fails but the model
answers: the run still produces the header row plus one row per seed URL. -/
theorem main_csv_shape_witness :
    main envDown = Except.ok (["URL", "Extracted Details"] ::
      URLS.map (fun url => [url, detailsOf envDown url])) :=
  main_csv_shape envDown (fun _ _ _ hc => nomatch hc)

/-- Claim C4: whatever the URL and whatever the fetch outcome, the string
returned by `scrape_text` has at most 1000 characters. -/
theorem scrape_text_length_le_1000 (url : String) (fetched : Except String (List Html)) :
    (scrape_text url fetched).val.length ≤ 1000 := by
  cases fetched with
  | error msg =>
      show ("" : String).length ≤ 1000
      decide
  | ok doc =>
      show (truncateStr (joinWith " " (strippedStringsList (pruneList doc))) 1000).length ≤ 1000
      have h : (truncateStr (joinWith " " (strippedStringsList (pruneList doc))) 1000).length
          = ((joinWith " " (strippedStringsList (pruneList doc))).data.take 1000).length := rfl
      rw [h, List.length_take]
      omega

/-- Claim C5: on a fetched HTML document, the text returned by `scrape_text`
is built from exactly the stripped text nodes that sit below no
script/style/header/footer/nav element (`visibleStringsList`), joined with
single spaces and then truncated to 1000 characters — so no content of a
removed element survives into the result. -/
theorem scrape_text_no_removed_tag_content (url : String) (doc : List Html) :
    (scrape_text url (Except.ok doc)).val
      = truncateStr (joinWith " " (visibleStringsList doc)) 1000 := by
  show truncateStr (joinWith " " (strippedStringsList (pruneList doc))) 1000 = _
  rw [strippedStrings_pruneList]

/-- Claim C6: when the GET for the base URL fails (any transport/HTTP error,
including a non-success status turned into an error by `raise_for_status`),
`get_relevant_links` returns the empty sequence and prints exactly one error
line; being a total function of the fetch outcome, it propagates no
exception. -/
theorem get_relevant_links_fetch_error (base_url msg : String) :
    (get_relevant_links base_url (Except.error msg)).val = []
    ∧ (get_relevant_links base_url (Except.error msg)).logs
        = ["Error fetching " ++ base_url ++ ": " ++ msg] :=
  ⟨rfl, rfl⟩

/-- Claim C7: when the GET fails, `scrape_text` returns the empty string and
prints exactly one error line; being a total function of the fetch outcome,
it propagates no exception. -/
theorem scrape_text_fetch_error (url msg : String) :
    (scrape_text url (Except.error msg)).val = ""
    ∧ (scrape_text url (Except.error msg)).logs
        = ["Error scraping " ++ url ++ ": " ++ msg] :=
  ⟨rfl, rfl⟩

/-- Claim C8: `extract_details` returns the stripped model response on
success; on a `requests.RequestException` it prints one line and returns the
empty string; any other error of the model call propagates to the caller
(the `Except.error` in the returned value, which `main` does not catch). -/
theorem extract_details_cases (text : String) (pick : Nat)
    (generate : String → String → Except GenError String) :
    (∀ s, generate (chooseModel pick) (buildPrompt text) = Except.ok s →
        extract_details text pick generate = ⟨Except.ok (pyStrip s), []⟩)
    ∧ (∀ msg, generate (chooseModel pick) (buildPrompt text)
          = Except.error (GenError.transport msg) →
        extract_details text pick generate
          = ⟨Except.ok "", ["Error extracting details due to a request issue: " ++ msg]⟩)
    ∧ (∀ msg, generate (chooseModel pick) (buildPrompt text)
          = Except.error (GenError.other msg) →
        extract_details text pick generate = ⟨Except.error msg, []⟩) := by
  refine ⟨?_, ?_, ?_⟩ <;> intro m hm <;> simp [extract_details, hm]

/-- Witness for claim C8: the three model-call outcomes produce, in turn, the
stripped response, the logged empty-string fallback, and the propagated
error. -/
theorem extract_details_cases_witness :
    extract_details "t" 0 genOkResp = ⟨Except.ok "resp", []⟩
    ∧ extract_details "t" 0 genTransport
        = ⟨Except.ok "", ["Error extracting details due to a request issue: timeout"]⟩
    ∧ extract_details "t" 0 genOther = ⟨Except.error "bad response", []⟩ :=
  ⟨(extract_details_cases "t" 0 genOkResp).1 " resp " rfl,
   (extract_details_cases "t" 0 genTransport).2.1 "timeout" rfl,
   (extract_details_cases "t" 0 genOther).2.2 "bad response" rfl⟩

/-- Claim C9: on a fetched homepage, every URL in the result of
`get_relevant_links` occurs in it exactly once, however many anchors produced
it. -/
theorem get_relevant_links_count_one (base_url : String) (doc : List Html) (u : String)
    (h : u ∈ (get_relevant_links base_url (Except.ok doc)).val) :
    ((get_relevant_links base_url (Except.ok doc)).val).count u = 1 := by
  rw [get_relevant_links_ok_val] at h ⊢
  exact List.count_eq_one_of_mem (List.nodup_dedup _) h

/-- Witness for claim C9, on a page repeating the `/about` anchor three times
(once in upper case): the single resolved URL occurs exactly once. -/
theorem get_relevant_links_count_one_witness :
    "https://a.com/about" ∈ (get_relevant_links "https://a.com" (Except.ok pageDupAnchors)).val
    ∧ ((get_relevant_links "https://a.com" (Except.ok pageDupAnchors)).val).count
        "https://a.com/about" = 1 :=
  ⟨by decide,
   get_relevant_links_count_one "https://a.com" pageDupAnchors "https://a.com/about" (by decide)⟩

/-- Claim C10: every URL returned by `get_relevant_links` is the resolution
of some anchor href lowercased — a string without ASCII upper-case
characters — against the base URL; and two present anchors whose hrefs agree
up to letter case and match the keyword list yield one and the same
discovered URL, occurring exactly once in the result. -/
theorem get_relevant_links_lowercased_resolution (base_url : String) (doc : List Html)
    (h1 h2 : String) (hm1 : h1 ∈ anchorHrefsList doc) (_hm2 : h2 ∈ anchorHrefsList doc)
    (hcase : lowerStr h1 = lowerStr h2) (hmatch : linkMatches h1 = true) :
    (∀ u ∈ (get_relevant_links base_url (Except.ok doc)).val,
        ∃ href ∈ anchorHrefsList doc, linkMatches href = true
          ∧ u = urljoin base_url (lowerStr href)
          ∧ ∀ c ∈ (lowerStr href).data, isUpperAscii c = false)
    ∧ urljoin base_url (lowerStr h1) = urljoin base_url (lowerStr h2)
    ∧ ((get_relevant_links base_url (Except.ok doc)).val).count
        (urljoin base_url (lowerStr h1)) = 1 := by
  refine ⟨?_, by rw [hcase], ?_⟩
  · intro u hu
    rw [get_relevant_links_ok_val] at hu
    have hu2 : u ∈ foundLinks base_url doc := List.mem_dedup.mp hu
    obtain ⟨href, hmem, hf⟩ := List.mem_filterMap.mp hu2
    by_cases hb : RELEVANT_LINKS.any (fun keyword => strContains (lowerStr href) keyword) = true
    · refine ⟨href, hmem, hb, ?_, lowerStr_no_upper href⟩
      simp only [hb, if_pos] at hf
      exact (Option.some_inj.mp hf).symm
    · simp only [hb] at hf
      simp at hf
  · have hmem : urljoin base_url (lowerStr h1) ∈ foundLinks base_url doc := by
      apply List.mem_filterMap.mpr
      refine ⟨h1, hm1, ?_⟩
      have hb : RELEVANT_LINKS.any (fun keyword => strContains (lowerStr h1) keyword) = true :=
        hmatch
      simp only [hb, if_pos]
    rw [get_relevant_links_ok_val]
    exact List.count_eq_one_of_mem (List.nodup_dedup _) (List.mem_dedup.mpr hmem)

/-- Witness for claim C10, on the page repeating `/about` and `/ABOUT`: both
lowercase to the same href, resolve to the same URL, and that URL occurs
exactly once in the discovery result. -/
theorem get_relevant_links_lowercased_resolution_witness :
    (∀ u ∈ (get_relevant_links "https://a.com" (Except.ok pageDupAnchors)).val,
        ∃ href ∈ anchorHrefsList pageDupAnchors, linkMatches href = true
          ∧ u = urljoin "https://a.com" (lowerStr href)
          ∧ ∀ c ∈ (lowerStr href).data, isUpperAscii c = false)
    ∧ urljoin "https://a.com" (lowerStr "/about") = urljoin "https://a.com" (lowerStr "/ABOUT")
    ∧ ((get_relevant_links "https://a.com" (Except.ok pageDupAnchors)).val).count
        (urljoin "https://a.com" (lowerStr "/about")) = 1 :=
  get_relevant_links_lowercased_resolution "https://a.com" pageDupAnchors "/about" "/ABOUT"
    (by decide) (by decide) (by decide) (by decide)

end ScrapNAnswer
